import Mathlib

/-!
Shallow embedding of the core of `src/server.js` (KuGouMusicApi):
the in-memory credential store (`loginStore`), the cron job registry
(`cronJobs`), the management endpoints (`saveLogin`, `startAutoCron`,
`stopAutoCron`, `getCronStatus`, `debugLogins`), the scheduled tick
callback (profile fetch, reward claim, bonus-claim loop, final status),
the dynamic-route failure mapping, and the normalized request-context
cookie merge.

JavaScript objects used as string-keyed maps are embedded as association
lists with overwrite-on-insert semantics; JavaScript falsiness of an
optional string field is `none` or the empty string.
-/

namespace KuGou

/-- Lookup in a string-keyed association list (JS object property read). -/
def lookupKey {β : Type} (k : String) : List (String × β) → Option β
  | [] => none
  | p :: rest => if p.1 = k then some p.2 else lookupKey k rest

/-- Remove every binding of key `k` (JS `delete obj[k]`). -/
def eraseKey {β : Type} (k : String) : List (String × β) → List (String × β)
  | [] => []
  | p :: rest => if p.1 = k then eraseKey k rest else p :: eraseKey k rest

/-- Insert-or-overwrite a binding (JS `obj[k] = v`). -/
def insertKey {β : Type} (k : String) (v : β) (l : List (String × β)) :
    List (String × β) :=
  (k, v) :: eraseKey k l

/-- Number of bindings of key `k` present in the list. -/
def countKey {β : Type} (k : String) : List (String × β) → Nat
  | [] => 0
  | p :: rest => (if p.1 = k then 1 else 0) + countKey k rest

/-- JS falsiness of an optional string request field: absent or empty. -/
def jsFalsy : Option String → Bool
  | none => true
  | some s => s.isEmpty

/-- A record of `loginStore`: `loginStore[userid] = (userid, token, savedAt)`
(src/server.js line 164). -/
structure LoginRecord where
  userid : String
  token : String
  savedAt : Nat
deriving DecidableEq, Repr

/-- A job handle held in `cronJobs`: the cron expression it was scheduled
with, the Cookie header string frozen into the tick closure at creation
(src/server.js lines 295-296), and the running state of the underlying
node-cron primitive. -/
structure Job where
  schedule : String
  headers : String
  running : Bool
deriving DecidableEq, Repr

/-- The two in-memory maps of the server (src/server.js lines 30-31). -/
structure ServerState where
  loginStore : List (String × LoginRecord)
  cronJobs : List (String × Job)
deriving DecidableEq, Repr

/-- The `status`/`msg` payload every management endpoint responds with. -/
structure ApiResult where
  status : Nat
  msg : String
deriving DecidableEq, Repr

/-- Effect of `job.stop()` on the underlying scheduler primitive. -/
def stopJob (j : Job) : Job :=
  { j with running := false }

/-- The Cookie header template of src/server.js line 296. -/
def mkCookieHeader (userid token : String) : String :=
  "token=" ++ token ++ "; userid=" ++ userid

/-- POST /api/saveLogin (src/server.js lines 155-187): reject a missing or
empty `userid`/`token` with a status-0 payload and no state change, else
insert or wholly overwrite the record with the current timestamp. -/
def saveLogin (st : ServerState) (uo tko : Option String) (now : Nat) :
    ServerState × ApiResult :=
  match uo, tko with
  | some userid, some token =>
    if userid.isEmpty || token.isEmpty then
      (st, ⟨0, "缺少userid或token"⟩)
    else
      ({ st with loginStore :=
          insertKey userid ⟨userid, token, now⟩ st.loginStore },
       ⟨1, "登录信息已保存到服务器内存"⟩)
  | _, _ => (st, ⟨0, "缺少userid或token"⟩)

/-- POST /api/startAutoCron (src/server.js lines 282-367).  Fails with a
status-0 payload when `userid` is falsy or has no `loginStore` record.
Otherwise stops and deletes any existing job for the user, reads the token
from the store, freezes the Cookie header, schedules the tick and installs
the new handle.  The third component is the prior job after `.stop()` was
invoked on it, if there was one. -/
def startAutoCron (st : ServerState) (uo timeo : Option String) :
    ServerState × ApiResult × Option Job :=
  let time := timeo.getD ("0 2 * * *")
  match uo with
  | none => (st, ⟨0, "用户不存在或未登录"⟩, none)
  | some userid =>
    if userid.isEmpty then (st, ⟨0, "用户不存在或未登录"⟩, none)
    else
      match lookupKey userid st.loginStore with
      | none => (st, ⟨0, "用户不存在或未登录"⟩, none)
      | some record =>
        let prior := lookupKey userid st.cronJobs
        let jobs1 :=
          match prior with
          | some _ => eraseKey userid st.cronJobs
          | none => st.cronJobs
        let token := record.token
        let headers := mkCookieHeader userid token
        let job : Job := { schedule := time, headers := headers, running := true }
        ({ st with cronJobs := insertKey userid job jobs1 },
         ⟨1, "定时任务已创建，执行时间: " ++ time⟩,
         prior.map stopJob)

/-- POST /api/stopAutoCron (src/server.js lines 369-380): status-0 payload
when no job is registered, else stop the job and delete its registry
entry.  The third component is the job after `.stop()`. -/
def stopAutoCron (st : ServerState) (uo : Option String) :
    ServerState × ApiResult × Option Job :=
  match uo with
  | none => (st, ⟨0, "未找到该用户的定时任务"⟩, none)
  | some userid =>
    match lookupKey userid st.cronJobs with
    | none => (st, ⟨0, "未找到该用户的定时任务"⟩, none)
    | some j =>
      ({ st with cronJobs := eraseKey userid st.cronJobs },
       ⟨1, "定时任务已停止"⟩,
       some (stopJob j))

/-- Status string computed per registered job (src/server.js lines 272-274). -/
def cronStatusStr (j : Job) : String :=
  if j.running then "运行中" else "已停止"

/-- GET /api/getCronStatus (src/server.js lines 268-277): one entry per key
of `cronJobs`, mapped to the running/stopped string. -/
def getCronStatus (st : ServerState) : List (String × String) :=
  st.cronJobs.map fun p => (p.1, cronStatusStr p.2)

/-- Response shape of GET /api/debugLogins (src/server.js line 390):
`status:1` plus the raw `loginStore` object. -/
structure DebugResponse where
  status : Nat
  data : List (String × LoginRecord)
deriving DecidableEq, Repr

/-- GET /api/debugLogins handler (src/server.js lines 383-391). -/
def debugLogins (st : ServerState) : DebugResponse :=
  { status := 1, data := st.loginStore }

/-- The management endpoints registered in `consturctServer`
(method, path), in source order (src/server.js lines 155-391). -/
def managementRoutes : List (String × String) :=
  [("POST", "/api/saveLogin"), ("GET", "/api/getLogins"),
   ("POST", "/api/clearCache"), ("POST", "/api/deleteLogin"),
   ("POST", "/api/clearLogins"), ("GET", "/api/getCronStatus"),
   ("POST", "/api/startAutoCron"), ("POST", "/api/stopAutoCron"),
   ("GET", "/api/debugLogins")]

/-- Parsed shape of a bonus-claim (`/youth/vip`) downstream response:
the fields the tick callback branches on (src/server.js lines 329-344). -/
structure AdResp where
  status : Int
  error_code : Int
deriving DecidableEq, Repr

/-- One downstream HTTP request issued by the tick callback: target URL and
the Cookie header it carries. -/
structure TickRequest where
  url : String
  headers : String
deriving DecidableEq, Repr

def userDetailUrl : String := "http://localhost:3000/user/detail"

def listenSongUrl : String := "http://localhost:3000/youth/listen/song"

def youthVipUrl : String := "http://localhost:3000/youth/vip"

def vipDetailUrl : String := "http://localhost:3000/user/vip/detail"

/-- The bonus-claim loop of the tick callback (src/server.js lines 324-345):
`for (let i = 1; i <= 8; i++)` issuing one `/youth/vip` call per iteration;
continue on `status === 1`, break on `error_code === 30002` (quota
exhausted), break on any other non-success.  `ads i` is the parsed response
of iteration `i`; the result is the list of requests issued. -/
def bonusLoop (headers : String) (ads : Nat → AdResp) : Nat → Nat → List TickRequest
  | _, 0 => []
  | i, fuel + 1 =>
    let req : TickRequest := { url := youthVipUrl, headers := headers }
    let ad := ads i
    if ad.status = 1 then
      req :: bonusLoop headers ads (i + 1) fuel
    else if ad.error_code = 30002 then
      [req]
    else
      [req]

/-- The tick callback (src/server.js lines 298-359) as the list of
downstream requests it issues, given the environment's responses:
`nickname` is `data.nickname` of the parsed profile response (`none` when
the field is absent), `ads` the bonus-claim responses.  A falsy nickname
ends the tick after the profile fetch; otherwise one reward-claim call,
the bonus-claim loop, and the final status fetch follow. -/
def runTick (headers : String) (nickname : Option String) (ads : Nat → AdResp) :
    List TickRequest :=
  let userReq : TickRequest := { url := userDetailUrl, headers := headers }
  if jsFalsy nickname then [userReq]
  else
    userReq :: { url := listenSongUrl, headers := headers } ::
      (bonusLoop headers ads 1 8 ++ [{ url := vipDetailUrl, headers := headers }])

/-- A tick of a registered job uses the Cookie header frozen in the job's
closure (src/server.js lines 295-304). -/
def tickOf (j : Job) (nickname : Option String) (ads : Nat → AdResp) :
    List TickRequest :=
  runTick j.headers nickname ads

/-- Spec-claimed per-tick credential lookup: the Cookie header a tick for
`userid` would carry if the Credential Store were consulted on the tick
itself.  Stated from the spec's words for comparison with the source's
frozen-at-start header (claim C1). -/
def perTickHeader (st : ServerState) (userid : String) : Option String :=
  (lookupKey userid st.loginStore).map fun r => mkCookieHeader userid r.token

/-- The fixed not-found envelope of the dynamic-route catch branch
(src/server.js lines 457-461): `code:404, data:null, msg:'Not Found'`. -/
structure Envelope where
  code : Nat
  dataNull : Bool
  msg : String
deriving DecidableEq, Repr

/-- Body written by the dynamic-route catch branch: either the fixed
envelope or the error value's own body forwarded verbatim. -/
inductive RespBody where
  | envelope (e : Envelope)
  | passthrough (b : String)
deriving DecidableEq, Repr

/-- HTTP response assembled by the dynamic-route catch branch. -/
structure HttpResponse where
  status : Nat
  headers : List (String × String)
  body : RespBody
deriving DecidableEq, Repr

/-- The error value thrown by a handler module: the `status`, `headers`,
`body` triple the catch branch reads (src/server.js lines 449-465);
`body = none` models a falsy (absent/empty) body. -/
structure ModuleError where
  status : Nat
  headers : List (String × String)
  body : Option String
deriving DecidableEq, Repr

/-- The dynamic-route catch branch (src/server.js lines 449-466): a falsy
body yields the fixed 404 envelope, otherwise the error value's own
status, headers and body are written verbatim. -/
def handleModuleError (e : ModuleError) : HttpResponse :=
  if jsFalsy e.body then
    { status := 404, headers := [],
      body := RespBody.envelope { code := 404, dataNull := true, msg := "Not Found" } }
  else
    { status := e.status, headers := e.headers,
      body := RespBody.passthrough (e.body.getD ("")) }

/-- A JavaScript object of string values, extensionally: key to value. -/
def JsObj : Type := String → Option String

/-- The empty object literal. -/
def emptyObj : JsObj := fun _ => none

/-- `Object.assign(a, b)` / object spread: bindings of `b` win. -/
def jsAssign (a b : JsObj) : JsObj :=
  fun k =>
    match b k with
    | some v => some v
    | none => a k

/-- Build a JS object from parsed pairs; a later pair overwrites an
earlier one with the same key. -/
def objOfPairs (l : List (String × String)) : JsObj :=
  fun k => l.foldl (fun acc p => if p.1 = k then some p.2 else acc) none

/-- Split a character list at every occurrence of `sep`. -/
def splitChars (sep : Char) : List Char → List (List Char)
  | [] => [[]]
  | c :: rest =>
    let r := splitChars sep rest
    if c = sep then [] :: r
    else
      match r with
      | [] => [[c]]
      | h :: t => (c :: h) :: t

/-- Drop surrounding spaces from a character list. -/
def trimChars (l : List Char) : List Char :=
  ((l.dropWhile fun c => c = ' ').reverse.dropWhile fun c => c = ' ').reverse

/-- Split one cookie pair at its first `=`; `none` when no `=` occurs. -/
def splitPair (l : List Char) : Option (String × String) :=
  match l.span fun c => c != '=' with
  | (_, []) => none
  | (key, _ :: val) => some (String.mk key, String.mk val)

/-- Modelled from the spec: `cookieToJson` lives in `util/util.js`, which
is not under `src/`; per the spec an authorization header is "parsed the
same way as a cookie string" into key/value pairs, so a pair string
"k1=v1; k2=v2" is split on separators and each trimmed chunk at its
first "=". -/
def cookieToJson (s : String) : List (String × String) :=
  (splitChars (';') s.toList).filterMap fun chunk =>
    splitPair (trimChars chunk)

/-- The cookie object of the Normalized Request Context built by the
dynamic-route middleware (src/server.js lines 403-413):
`Object.assign({}, req.cookies, cookie)` then, when an Authorization
header is present, the spread of its `cookieToJson` parse last. -/
def buildQueryCookie (reqCookies : JsObj) (queryCookie : Option JsObj)
    (authHeader : Option String) : JsObj :=
  let base := jsAssign (jsAssign emptyObj reqCookies) (queryCookie.getD emptyObj)
  match authHeader with
  | none => base
  | some a => jsAssign base (objOfPairs (cookieToJson a))

/-- Initial server state: both in-memory maps empty (src/server.js
lines 30-31). -/
def st0 : ServerState := { loginStore := [], cronJobs := [] }

/-- State after `saveLogin` for user "u1" with token "t1" at time 100. -/
def stSaved : ServerState := (saveLogin st0 (some ("u1")) (some ("t1")) 100).1

/-- State after `startAutoCron` for "u1" with the default schedule. -/
def stStarted : ServerState := (startAutoCron stSaved (some ("u1")) none).1

/-- State after the token of "u1" is re-saved as "t2" between ticks. -/
def stResaved : ServerState :=
  (saveLogin stStarted (some ("u1")) (some ("t2")) 200).1

/-- State after `stopAutoCron` for "u1". -/
def stStopped : ServerState := (stopAutoCron stStarted (some ("u1"))).1

/-- A concrete bonus-claim response sequence: success on iterations 1 and 2,
quota exhausted (error_code 30002) from iteration 3 on. -/
def c5ads : Nat → AdResp := fun j => if j < 3 then ⟨1, 0⟩ else ⟨0, 30002⟩

theorem lookupKey_insertKey_self {β : Type} (k : String) (v : β)
    (l : List (String × β)) : lookupKey k (insertKey k v l) = some v := by
  simp [insertKey, lookupKey]

theorem lookupKey_eraseKey_self {β : Type} (k : String) (l : List (String × β)) :
    lookupKey k (eraseKey k l) = none := by
  induction l with
  | nil => rfl
  | cons p rest ih =>
    by_cases h : p.1 = k
    · simpa [eraseKey, h] using ih
    · simp [eraseKey, lookupKey, h, ih]

theorem countKey_eraseKey_self {β : Type} (k : String) (l : List (String × β)) :
    countKey k (eraseKey k l) = 0 := by
  induction l with
  | nil => rfl
  | cons p rest ih =>
    by_cases h : p.1 = k
    · simpa [eraseKey, h] using ih
    · simp [eraseKey, countKey, h, ih]

theorem countKey_insertKey_self {β : Type} (k : String) (v : β)
    (l : List (String × β)) : countKey k (insertKey k v l) = 1 := by
  simp [insertKey, countKey, countKey_eraseKey_self]

theorem lookupKey_map_snd {β γ : Type} (k : String) (f : β → γ)
    (l : List (String × β)) :
    lookupKey k (l.map fun p => (p.1, f p.2)) = (lookupKey k l).map f := by
  induction l with
  | nil => rfl
  | cons p rest ih =>
    by_cases h : p.1 = k <;> simp [lookupKey, h, ih]

theorem saveLogin_cronJobs (st : ServerState) (uo tko : Option String) (now : Nat) :
    (saveLogin st uo tko now).1.cronJobs = st.cronJobs := by
  cases uo with
  | none => rfl
  | some u =>
    cases tko with
    | none => rfl
    | some t =>
      simp only [saveLogin]
      split <;> rfl

theorem bonusLoop_length_le (headers : String) (ads : Nat → AdResp) :
    ∀ fuel i, (bonusLoop headers ads i fuel).length ≤ fuel := by
  intro fuel
  induction fuel with
  | zero => intro i; simp [bonusLoop]
  | succ n ih =>
    intro i
    by_cases h1 : (ads i).status = 1
    · simp only [bonusLoop, h1, if_true, List.length_cons]
      exact Nat.succ_le_succ (ih (i + 1))
    · by_cases h2 : (ads i).error_code = 30002 <;>
        simp [bonusLoop, h1, h2]

theorem bonusLoop_length_eq (headers : String) (ads : Nat → AdResp) :
    ∀ fuel i k, i ≤ k → k < i + fuel →
      (∀ j, i ≤ j → j < k → (ads j).status = 1) →
      (ads k).status ≠ 1 →
      (bonusLoop headers ads i fuel).length = k + 1 - i := by
  intro fuel
  induction fuel with
  | zero => intro i k h1 h2 _ _; omega
  | succ n ih =>
    intro i k hik hkf hs hk
    by_cases hi : i = k
    · subst hi
      by_cases h2 : (ads i).error_code = 30002 <;>
        simp [bonusLoop, hk, h2]
    · have hlt : i < k := lt_of_le_of_ne hik hi
      have h1 : (ads i).status = 1 := hs i le_rfl hlt
      have hrec := ih (i + 1) k hlt (by omega)
        (fun j hj1 hj2 => hs j (by omega) hj2) hk
      simp only [bonusLoop, h1, if_true, List.length_cons, hrec]
      omega

/-- Claim C1, counterexample: after saving token "t1" for "u1", starting the
job, and re-saving token "t2", the job's frozen Cookie header still carries
"t1": every request of a subsequent tick uses the start-time header, while
the per-tick Credential Store lookup the claim describes would yield the
header with "t2".  So a tick after a re-save does not carry the updated
token. -/
theorem c1_counterexample :
    (lookupKey ("u1") stResaved.cronJobs).map Job.headers =
      some ("token=t1; userid=u1") ∧
    perTickHeader stResaved ("u1") = some ("token=t2; userid=u1") ∧
    (lookupKey ("u1") stResaved.cronJobs).map Job.headers ≠
      perTickHeader stResaved ("u1") ∧
    (lookupKey ("u1") stResaved.cronJobs).map
        (fun j => (tickOf j (some ("nick")) (fun _ => ⟨0, 30002⟩)).map
          TickRequest.headers) =
      some ["token=t1; userid=u1", "token=t1; userid=u1",
            "token=t1; userid=u1", "token=t1; userid=u1"] := by
  decide

/-- Claim C1, amended: the credential a tick carries is captured by a
Credential Store lookup performed once at job start and frozen into the
job's header; a later re-save of the token leaves the registered job (and
hence the header every later tick uses) unchanged until the job is
restarted. -/
theorem c1_theorem (st : ServerState) (u : String) (r : LoginRecord)
    (timeo tko2 : Option String) (now : Nat)
    (hu : u.isEmpty = false) (hr : lookupKey u st.loginStore = some r) :
    lookupKey u (startAutoCron st (some u) timeo).1.cronJobs =
      some { schedule := timeo.getD ("0 2 * * *"),
             headers := mkCookieHeader u r.token, running := true } ∧
    (saveLogin (startAutoCron st (some u) timeo).1 (some u) tko2 now).1.cronJobs =
      (startAutoCron st (some u) timeo).1.cronJobs := by
  refine ⟨?_, saveLogin_cronJobs _ _ _ _⟩
  simp [startAutoCron, hu, hr, lookupKey_insertKey_self]

/-- Witness for the amended C1 at the concrete scenario state. -/
theorem c1_witness :
    lookupKey ("u1") (startAutoCron stSaved (some ("u1")) none).1.cronJobs =
      some { schedule := (none : Option String).getD ("0 2 * * *"),
             headers := mkCookieHeader ("u1") ("t1"), running := true } ∧
    (saveLogin (startAutoCron stSaved (some ("u1")) none).1 (some ("u1"))
        (some ("t2")) 200).1.cronJobs =
      (startAutoCron stSaved (some ("u1")) none).1.cronJobs :=
  c1_theorem stSaved ("u1") ⟨"u1", "t1", 100⟩ none (some ("t2")) 200
    (by decide) (by decide)

/-- Claim C2: starting a job for a logged-in user who already has a
registered job stops the existing job's timer, returns exactly one live
registry binding for that user, and installs the newly built handle. -/
theorem c2_theorem (st : ServerState) (u : String) (r : LoginRecord) (j : Job)
    (timeo : Option String) (hu : u.isEmpty = false)
    (hr : lookupKey u st.loginStore = some r)
    (hj : lookupKey u st.cronJobs = some j) :
    (startAutoCron st (some u) timeo).2.2 = some (stopJob j) ∧
    countKey u (startAutoCron st (some u) timeo).1.cronJobs = 1 ∧
    lookupKey u (startAutoCron st (some u) timeo).1.cronJobs =
      some { schedule := timeo.getD ("0 2 * * *"),
             headers := mkCookieHeader u r.token, running := true } := by
  simp [startAutoCron, hu, hr, hj, countKey_insertKey_self,
    lookupKey_insertKey_self]

/-- Witness for C2: starting twice for "u1" stops the first job and leaves
exactly one live handle. -/
theorem c2_witness :
    (startAutoCron stStarted (some ("u1")) none).2.2 =
      some (stopJob { schedule := "0 2 * * *",
                      headers := mkCookieHeader ("u1") ("t1"), running := true }) ∧
    countKey ("u1") (startAutoCron stStarted (some ("u1")) none).1.cronJobs = 1 ∧
    lookupKey ("u1") (startAutoCron stStarted (some ("u1")) none).1.cronJobs =
      some { schedule := (none : Option String).getD ("0 2 * * *"),
             headers := mkCookieHeader ("u1") ("t1"), running := true } :=
  c2_theorem stStarted ("u1") ⟨"u1", "t1", 100⟩
    { schedule := "0 2 * * *", headers := mkCookieHeader ("u1") ("t1"),
      running := true }
    none (by decide) (by decide) (by decide)

/-- Claim C3, counterexample: in the end-to-end scenario (save "u1", start,
stop), the stop succeeds but the stopped user is absent from the status
mapping — `getCronStatus` returns the empty mapping, not "u1" mapped to
the stopped string — because the stop handler deletes the registry entry. -/
theorem c3_counterexample :
    (stopAutoCron stStarted (some ("u1"))).2.1 = ⟨1, "定时任务已停止"⟩ ∧
    getCronStatus stStopped = [] ∧
    lookupKey ("u1") (getCronStatus stStopped) = none := by
  decide

/-- Claim C3, amended: after a successful stop for a user, a subsequent
status query shows no entry at all for that user (the registry entry is
deleted by stop), rather than mapping the user to Stopped. -/
theorem c3_theorem (st : ServerState) (u : String) (j : Job)
    (hj : lookupKey u st.cronJobs = some j) :
    (stopAutoCron st (some u)).2.1 = ⟨1, "定时任务已停止"⟩ ∧
    lookupKey u (getCronStatus (stopAutoCron st (some u)).1) = none := by
  simp [stopAutoCron, hj, getCronStatus, lookupKey_map_snd,
    lookupKey_eraseKey_self]

/-- Witness for the amended C3 at the concrete scenario state. -/
theorem c3_witness :
    (stopAutoCron stStarted (some ("u1"))).2.1 = ⟨1, "定时任务已停止"⟩ ∧
    lookupKey ("u1") (getCronStatus (stopAutoCron stStarted (some ("u1"))).1) =
      none :=
  c3_theorem stStarted ("u1")
    { schedule := "0 2 * * *", headers := mkCookieHeader ("u1") ("t1"),
      running := true }
    (by decide)

/-- Claim C4: starting a job with an absent userid field, or for a userid
with no Credential Store record, returns the status-0 failure payload,
returns the state unchanged (both maps exactly as before), and stops no
timer — no Job Handle is created. -/
theorem c4_theorem (st : ServerState) (uo timeo : Option String)
    (h : ∀ u, uo = some u → lookupKey u st.loginStore = none) :
    startAutoCron st uo timeo = (st, ⟨0, "用户不存在或未登录"⟩, none) := by
  cases uo with
  | none => rfl
  | some u =>
    have hu := h u rfl
    by_cases he : u.isEmpty <;> simp [startAutoCron, he, hu]

/-- Witness for C4: starting for the unknown user "u2" on the empty state. -/
theorem c4_witness :
    startAutoCron st0 (some ("u2")) none =
      (st0, ⟨0, "用户不存在或未登录"⟩, none) :=
  c4_theorem st0 (some ("u2")) none
    (fun u hu => by injection hu with h; subst h; rfl)

/-- Claim C5: if the bonus-claim responses succeed on the first k-1
iterations and iteration k returns the quota-exhausted error (status not 1,
error_code 30002), the loop issues exactly k downstream calls; and any run
of the loop issues at most 8 calls. -/
theorem c5_theorem (headers headers2 : String) (ads ads2 : Nat → AdResp)
    (k : Nat) (hk1 : 1 ≤ k) (hk8 : k ≤ 8)
    (hs : ∀ j, 1 ≤ j → j < k → (ads j).status = 1)
    (hq1 : (ads k).status ≠ 1) (_hq2 : (ads k).error_code = 30002) :
    (bonusLoop headers ads 1 8).length = k ∧
    (bonusLoop headers2 ads2 1 8).length ≤ 8 := by
  constructor
  · have hlen := bonusLoop_length_eq headers ads 8 1 k hk1 (by omega) hs hq1
    omega
  · exact bonusLoop_length_le headers2 ads2 8 1

/-- Witness for C5 with quota exhaustion on iteration 3 (exactly 3 calls)
and an always-successful run (8 calls, at most 8). -/
theorem c5_witness :
    (bonusLoop ("h1") c5ads 1 8).length = 3 ∧
    (bonusLoop ("h2") (fun _ => ⟨1, 0⟩) 1 8).length ≤ 8 :=
  c5_theorem ("h1") ("h2") c5ads (fun _ => ⟨1, 0⟩) 3 (by decide) (by decide)
    (fun j hj1 hj2 => by simp [c5ads, hj2]) (by decide) (by decide)

/-- Claim C6: a tick whose profile response lacks `data.nickname` issues
only the profile-fetch request — no reward-claim, bonus-claim or
final-status call follows — and the tick returns normally (no error beyond
the log line). -/
theorem c6_theorem (headers : String) (ads : Nat → AdResp) :
    runTick headers none ads = [{ url := userDetailUrl, headers := headers }] := by
  rfl

/-- Claim C7: a save with a missing or empty userid or token returns the
InvalidInput payload with the whole state unchanged; with both fields
non-empty the record for that userid is inserted or wholly overwritten
with the current timestamp. -/
theorem c7_theorem (st : ServerState) (uo tko : Option String) (now : Nat) :
    (jsFalsy uo = true ∨ jsFalsy tko = true →
      saveLogin st uo tko now = (st, ⟨0, "缺少userid或token"⟩)) ∧
    (∀ userid token, uo = some userid → tko = some token →
      userid.isEmpty = false → token.isEmpty = false →
      saveLogin st uo tko now =
        ({ st with loginStore :=
            insertKey userid ⟨userid, token, now⟩ st.loginStore },
         ⟨1, "登录信息已保存到服务器内存"⟩)) := by
  constructor
  · intro h
    cases uo with
    | none => rfl
    | some u =>
      cases tko with
      | none => rfl
      | some t =>
        simp only [jsFalsy] at h
        rcases h with h | h <;> simp [saveLogin, h]
  · intro userid token hu ht hue hte
    subst hu; subst ht
    simp [saveLogin, hue, hte]

/-- Witness for C7: a valid save inserts the record; a save with empty
userid is rejected with the state unchanged. -/
theorem c7_witness :
    saveLogin st0 (some ("u1")) (some ("t1")) 100 =
      ({ st0 with loginStore :=
          insertKey ("u1") ⟨"u1", "t1", 100⟩ st0.loginStore },
       ⟨1, "登录信息已保存到服务器内存"⟩) ∧
    saveLogin st0 (some ("")) (some ("t1")) 100 =
      (st0, ⟨0, "缺少userid或token"⟩) :=
  ⟨(c7_theorem st0 (some ("u1")) (some ("t1")) 100).2 ("u1") ("t1")
      rfl rfl (by decide) (by decide),
   (c7_theorem st0 (some ("")) (some ("t1")) 100).1 (Or.inl (by decide))⟩

/-- Claim C8: the dynamic-route catch branch answers a thrown error with a
falsy body by exactly status 404 and the fixed envelope, and a thrown error
with a non-empty body by that error's own status, headers and body
verbatim. -/
theorem c8_theorem (e : ModuleError) :
    (jsFalsy e.body = true →
      handleModuleError e =
        ⟨404, [], RespBody.envelope ⟨404, true, "Not Found"⟩⟩) ∧
    (∀ b, e.body = some b → b.isEmpty = false →
      handleModuleError e = ⟨e.status, e.headers, RespBody.passthrough b⟩) := by
  constructor
  · intro h
    simp [handleModuleError, h]
  · intro b hb hbe
    simp [handleModuleError, jsFalsy, hb, hbe]

/-- Witness for C8: an error with no body yields the 404 envelope; an error
with a body is forwarded verbatim. -/
theorem c8_witness :
    handleModuleError ⟨502, [("a", "b")], none⟩ =
      ⟨404, [], RespBody.envelope ⟨404, true, "Not Found"⟩⟩ ∧
    handleModuleError ⟨502, [("a", "b")], some ("bad gateway")⟩ =
      ⟨502, [("a", "b")], RespBody.passthrough ("bad gateway")⟩ :=
  ⟨(c8_theorem ⟨502, [("a", "b")], none⟩).1 (by decide),
   (c8_theorem ⟨502, [("a", "b")], some ("bad gateway")⟩).2 ("bad gateway")
      rfl (by decide)⟩

/-- Claim C9: when a dynamic-route request carries an Authorization header,
the header is parsed as a cookie-pair string and overlaid last onto the
context's cookie object, so any key it defines wins over the request
cookies and the query/body cookie value. -/
theorem c9_theorem (reqCookies : JsObj) (queryCookie : Option JsObj)
    (a k v : String) (h : objOfPairs (cookieToJson a) k = some v) :
    buildQueryCookie reqCookies queryCookie (some a) k = some v := by
  simp [buildQueryCookie, jsAssign, h]

/-- Witness for C9: "token" defined by request cookies, the query cookie
value and the Authorization header; the Authorization value wins. -/
theorem c9_witness :
    buildQueryCookie (objOfPairs [("token", "old")])
      (some (objOfPairs [("token", "qold")])) (some ("token=new")) ("token") =
      some ("new") :=
  c9_theorem (objOfPairs [("token", "old")])
    (some (objOfPairs [("token", "qold")])) ("token=new") ("token") ("new")
    (by decide)

/-- Claim C10: GET /api/debugLogins is a registered public endpoint and its
response exposes the raw credential store: every saved record is observable
in the response data with its userid, token and savedAt. -/
theorem c10_theorem (st : ServerState) (u : String) (r : LoginRecord)
    (h : lookupKey u st.loginStore = some r) :
    ("GET", "/api/debugLogins") ∈ managementRoutes ∧
    (debugLogins st).status = 1 ∧
    ∃ r2, lookupKey u (debugLogins st).data = some r2 ∧
      r2.userid = r.userid ∧ r2.token = r.token ∧ r2.savedAt = r.savedAt :=
  ⟨by decide, rfl, r, h, rfl, rfl, rfl⟩

/-- Witness for C10 at the concrete one-record store. -/
theorem c10_witness :
    ("GET", "/api/debugLogins") ∈ managementRoutes ∧
    (debugLogins stSaved).status = 1 ∧
    ∃ r2, lookupKey ("u1") (debugLogins stSaved).data = some r2 ∧
      r2.userid = LoginRecord.userid ⟨"u1", "t1", 100⟩ ∧
      r2.token = LoginRecord.token ⟨"u1", "t1", 100⟩ ∧
      r2.savedAt = LoginRecord.savedAt ⟨"u1", "t1", 100⟩ :=
  c10_theorem stSaved ("u1") ⟨"u1", "t1", 100⟩ (by decide)

end KuGou

